import Mathlib

/-!
Verification development for the dual-CPU custom sensor module
(`library/sensors/sensors_custom.py`).

The module is embedded shallowly: Python floats become rationals (with an
explicit `Val` type whose `nan` constructor models `math.nan`), Python
exceptions become an `Except` monad (`PyM`), `try/except` blocks become
explicit matches on the `Except` result, OS files become a `ReadResult`
environment, the LibreHardwareMonitor handle becomes an optional list of
hardware nodes, and the class-level mutable fields of each sensor class
become explicit state records threaded through each `as_numeric` call.
-/

namespace SensorsCustom

/-- A Python float restricted to the values this module ever produces:
either a rational number or the `math.nan` sentinel. -/
inductive Val where
  | nan : Val
  | num (q : ℚ) : Val
  deriving DecidableEq

/-- The Python exception classes that the embedded code can raise. -/
inductive PyExc where
  | fileNotFound : PyExc
  | valueError : PyExc
  | typeError : PyExc
  | indexError : PyExc
  | attributeError : PyExc
  | oserror : PyExc
  deriving DecidableEq

/-- Result of a Python computation: a value or a raised exception. -/
abbrev PyM (α : Type) : Type := Except PyExc α

/-- Outcome of `open(path).read()` on a sysfs file: the file content,
a missing file (`FileNotFoundError`), or another I/O error (`OSError`). -/
inductive ReadResult where
  | found (s : String) : ReadResult
  | notFound : ReadResult
  | ioError : ReadResult
  deriving DecidableEq

/-- `open(path) / f.read()`, raising for a missing or unreadable file. -/
def readFileE (r : ReadResult) : PyM String :=
  match r with
  | .found s => .ok s
  | .notFound => .error .fileNotFound
  | .ioError => .error .oserror

/-- `float(x)` applied to a nullable sensor value: raises `TypeError` on `None`. -/
def pyFloat (v : Option ℚ) : PyM ℚ :=
  match v with
  | some q => .ok q
  | none => .error .typeError

-- ---------------------------------------------------------------------------
-- Python string primitives, modelled over `List Char`
-- ---------------------------------------------------------------------------

/-- Whitespace characters recognised by `str.strip` / `str.split`. -/
def isSpaceChar (c : Char) : Bool :=
  c = ' ' ∨ c = '\t' ∨ c = '\n' ∨ c = '\r'

/-- `str.strip()`. -/
def trimChars (cs : List Char) : List Char :=
  ((cs.dropWhile isSpaceChar).reverse.dropWhile isSpaceChar).reverse

/-- Helper for `pyWords`: accumulates the current word (reversed). -/
def pyWordsAux : List Char → List Char → List (List Char)
  | [], acc => if acc.isEmpty then [] else [acc.reverse]
  | c :: rest, acc =>
    if isSpaceChar c then
      if acc.isEmpty then pyWordsAux rest [] else acc.reverse :: pyWordsAux rest []
    else pyWordsAux rest (c :: acc)

/-- `str.split()` with no argument: splits on whitespace runs, no empty parts. -/
def pyWords (cs : List Char) : List (List Char) := pyWordsAux cs []

/-- Helper for `splitOnChar`. -/
def splitOnCharAux (sep : Char) : List Char → List Char → List (List Char)
  | [], acc => [acc.reverse]
  | c :: rest, acc =>
    if c = sep then acc.reverse :: splitOnCharAux sep rest []
    else splitOnCharAux sep rest (c :: acc)

/-- `str.split(sep)` for a single-character separator. -/
def splitOnChar (sep : Char) (cs : List Char) : List (List Char) :=
  splitOnCharAux sep cs []

/-- `str.splitlines()`: like splitting on the newline character, but a trailing
newline does not produce a final empty line. -/
def splitLines (cs : List Char) : List (List Char) :=
  let parts := splitOnChar '\n' cs
  match parts.getLast? with
  | some [] => parts.dropLast
  | _ => parts

/-- `str.lower()` (ASCII, which is all the module compares). -/
def toLowerL (cs : List Char) : List Char := cs.map Char.toLower

/-- `needle in hay` (Python substring test). -/
def pyContainsL (hay needle : List Char) : Bool :=
  (List.range (hay.length + 1)).any fun i => needle.isPrefixOf (hay.drop i)

/-- `hay.startswith(needle)`. -/
def pyStartsWithL (hay needle : List Char) : Bool := needle.isPrefixOf hay

/-- `needle in hay` on `String`. -/
def pyContains (hay needle : String) : Bool := pyContainsL hay.data needle.data

/-- `hay.startswith(needle)` on `String`. -/
def pyStartsWith (hay needle : String) : Bool := pyStartsWithL hay.data needle.data

/-- `str.isdigit()`: nonempty and all decimal digits. -/
def isDigitStr (cs : List Char) : Bool := !cs.isEmpty && cs.all Char.isDigit

/-- Value of a nonempty digit string; `none` if empty or non-digit. -/
def digitsVal (cs : List Char) : Option ℕ :=
  if cs.isEmpty then none
  else cs.foldl (fun acc c =>
    acc.bind fun n => if c.isDigit then some (n * 10 + (c.toNat - 48)) else none)
    (some 0)

/-- Numeric value of a digit string that passed `isDigitStr` (total variant). -/
def strToNat (cs : List Char) : ℕ :=
  cs.foldl (fun acc c => acc * 10 + (c.toNat - 48)) 0

/-- `int(s)` on an already-materialised character list: strips whitespace,
accepts an optional sign followed by digits, otherwise fails (`ValueError`). -/
def pyParseIntChars (cs : List Char) : Option ℤ :=
  match trimChars cs with
  | '-' :: rest => (digitsVal rest).map fun n => -(n : ℤ)
  | '+' :: rest => (digitsVal rest).map fun n => (n : ℤ)
  | rest => (digitsVal rest).map fun n => (n : ℤ)

/-- `int(s)` on a `String`. -/
def pyParseInt (s : String) : Option ℤ := pyParseIntChars s.data

-- ---------------------------------------------------------------------------
-- Python dict / grouping primitives (insertion-ordered association lists)
-- ---------------------------------------------------------------------------

/-- `d[k] = v` on an insertion-ordered dict with integer keys. -/
def dictSet (d : List (ℤ × ℚ)) (k : ℤ) (v : ℚ) : List (ℤ × ℚ) :=
  match d with
  | [] => [(k, v)]
  | (k', v') :: rest => if k' = k then (k, v) :: rest else (k', v') :: dictSet rest k v

/-- `d.setdefault(k, v)`: insert only when the key is absent. -/
def dictSetDefault (d : List (ℤ × ℚ)) (k : ℤ) (v : ℚ) : List (ℤ × ℚ) :=
  match d.lookup k with
  | some _ => d
  | none => d ++ [(k, v)]

/-- `d[k] = v` on an insertion-ordered dict with string keys. -/
def dictSetS (d : List (String × ℚ)) (k : String) (v : ℚ) : List (String × ℚ) :=
  match d with
  | [] => [(k, v)]
  | (k', v') :: rest => if k' = k then (k, v) :: rest else (k', v') :: dictSetS rest k v

/-- `collections.defaultdict(list)`: append `v` to the bucket of key `k`,
creating the bucket at the end on first use (insertion order). -/
def groupAppend (d : List (ℤ × List ℚ)) (k : ℤ) (v : ℚ) : List (ℤ × List ℚ) :=
  match d with
  | [] => [(k, [v])]
  | (k', vs) :: rest =>
    if k' = k then (k', vs ++ [v]) :: rest else (k', vs) :: groupAppend rest k v

/-- Group a list of `(key, value)` pairs with a `defaultdict(list)`. -/
def groupBy (pairs : List (ℤ × ℚ)) : List (ℤ × List ℚ) :=
  pairs.foldl (fun d p => groupAppend d p.1 p.2) []

/-- `statistics.mean` (exact rational arithmetic). -/
def qMean (l : List ℚ) : ℚ := l.sum / (l.length : ℚ)

/-- `max` of a list of rationals (`0` on the empty list, never reached). -/
def listMaxQ : List ℚ → ℚ
  | [] => 0
  | x :: xs => xs.foldl max x

/-- `max` of a list of integers (`0` on the empty list, never reached). -/
def listMaxZ : List ℤ → ℤ
  | [] => 0
  | x :: xs => xs.foldl max x

-- ---------------------------------------------------------------------------
-- History buffer
-- ---------------------------------------------------------------------------

/-- The initial `last_val` class field: `[math.nan] * 10`. -/
def histInit : List Val := List.replicate 10 Val.nan

/-- `last_val.append(v)` followed by `last_val.pop(0)`. -/
def pushHist (h : List Val) (v : Val) : List Val := (h ++ [v]).drop 1

-- ---------------------------------------------------------------------------
-- LibreHardwareMonitor (LHM) hardware tree model
-- ---------------------------------------------------------------------------

/-- `Hardware.SensorType` (only the tags this module compares against). -/
inductive SensorType where
  | load : SensorType
  | temperature : SensorType
  | clock : SensorType
  | fan : SensorType
  | other : SensorType
  deriving DecidableEq

/-- `Hardware.HardwareType` (only the tags this module compares against). -/
inductive HardwareType where
  | cpu : HardwareType
  | memory : HardwareType
  | other : HardwareType
  deriving DecidableEq

/-- An LHM sensor node: type tag, name, nullable value. -/
structure LSensor where
  stype : SensorType
  name : String
  value : Option ℚ
  deriving DecidableEq

/-- An LHM hardware node: type tag plus its sensors (in enumeration order). -/
structure LHardware where
  htype : HardwareType
  sensors : List LSensor
  deriving DecidableEq

/-- `_get_cpus_lhm()`: all CPU hardware units from the handle, or `[]` when the
handle is `None` (binding absent / import failed). -/
def getCpusLhm (h : Option (List LHardware)) : List LHardware :=
  match h with
  | none => []
  | some hws => hws.filter fun hw => decide (hw.htype = .cpu)

/-- `_get_cpu_by_index_lhm(index)`: `cpus[index] if index < len(cpus) else None`. -/
def getCpuByIdxLhm (h : Option (List LHardware)) (index : ℕ) : Option LHardware :=
  (getCpusLhm h)[index]?

/-- `_find_sensor_lhm(hw, sensor_type, name_contains, name_startswith)`:
first sensor of the right type with a present value satisfying the optional
substring and starting-text filters, in native enumeration order. -/
def findSensorLhm (hw : Option LHardware) (t : SensorType)
    (name_contains name_startswith : Option String) : Option LSensor :=
  match hw with
  | none => none
  | some h => h.sensors.find? fun s =>
      decide (s.stype = t) && s.value.isSome &&
      (match name_contains with
       | some n => pyContains s.name n
       | none => true) &&
      (match name_startswith with
       | some p => pyStartsWith s.name p
       | none => true)

-- ---------------------------------------------------------------------------
-- Environment: the OS- and binding-supplied data a poll cycle can observe
-- ---------------------------------------------------------------------------

/-- `platform.system()` outcomes distinguished by the module. -/
inductive Platform where
  | linux : Platform
  | windows : Platform
  | otherOS : Platform
  deriving DecidableEq

/-- One element of `psutil.cpu_freq(percpu=True)`. -/
structure FreqPair where
  current : ℚ
  fmax : ℚ
  deriving DecidableEq

/-- One entry of a `psutil.sensors_temperatures()` list. -/
structure TempEntry where
  label : String
  current : ℚ
  deriving DecidableEq

/-- One entry of a `psutil.sensors_fans()` list. -/
structure FanEntry where
  label : String
  current : ℚ
  deriving DecidableEq

/-- The object returned by `psutil.disk_io_counters()` when disks exist. -/
structure DiskCounters where
  readBytes : ℤ
  writeBytes : ℤ
  deriving DecidableEq

/-- `counters.read_bytes`: `psutil.disk_io_counters()` is documented to
return `None` on systems with no disks, and the attribute access then raises
`AttributeError` (the disk classes have no exception handling around it). -/
def countersReadBytes (c : Option DiskCounters) : PyM ℤ :=
  match c with
  | some c => .ok c.readBytes
  | none => .error .attributeError

/-- `counters.write_bytes`; see `countersReadBytes`. -/
def countersWriteBytes (c : Option DiskCounters) : PyM ℤ :=
  match c with
  | some c => .ok c.writeBytes
  | none => .error .attributeError

/-- Everything the external world supplies during one `as_numeric` call. -/
structure Env where
  plat : Platform
  /-- content of `/sys/devices/system/cpu/cpu{i}/topology/physical_package_id` -/
  topoFile : ℕ → ReadResult
  /-- content of `/sys/devices/system/cpu/cpu{i}/cpufreq/cpuinfo_max_freq` -/
  cpuinfoMaxFile : ℕ → ReadResult
  /-- content of `/sys/devices/system/cpu/cpu{i}/cpufreq/scaling_max_freq` -/
  scalingMaxFile : ℕ → ReadResult
  /-- `psutil.cpu_percent(interval=None, percpu=True)` -/
  perCpuPercent : List ℚ
  /-- `psutil.cpu_freq(percpu=True)` -/
  perCpuFreq : List FreqPair
  /-- `psutil.sensors_temperatures()` -/
  sensorTemps : List (String × List TempEntry)
  /-- `psutil.sensors_fans()` -/
  fans : List (String × List FanEntry)
  /-- the LHM handle: `none` when the import failed or never succeeded -/
  lhm : Option (List LHardware)
  /-- stdout of `dmidecode -t memory` (`none`: the subprocess call raised) -/
  dmidecodeOut : Option String
  /-- stdout of `sudo -n dmidecode -t memory` (`none`: the call raised) -/
  sudoDmidecodeOut : Option String
  /-- stdout of `decode-dimms` (`none`: the call raised) -/
  decodeDimmsOut : Option String
  /-- `psutil.disk_io_counters()`: `none` models the documented `None`
  return on systems with no disks -/
  diskCounters : Option DiskCounters
  /-- `time.time()` -/
  timeNow : ℚ

/-- A neutral environment used to build concrete test environments. -/
def envDefault : Env where
  plat := .otherOS
  topoFile := fun _ => .notFound
  cpuinfoMaxFile := fun _ => .notFound
  scalingMaxFile := fun _ => .notFound
  perCpuPercent := []
  perCpuFreq := []
  sensorTemps := []
  fans := []
  lhm := none
  dmidecodeOut := none
  sudoDmidecodeOut := none
  decodeDimmsOut := none
  diskCounters := none
  timeNow := 0

-- ---------------------------------------------------------------------------
-- Linux helpers: package map, per-package usage / frequency aggregation
-- ---------------------------------------------------------------------------

/-- Reading and parsing one topology file (the body of the inner `try`). -/
def readPackageIdE (r : ReadResult) : PyM ℤ :=
  match readFileE r with
  | .ok s =>
    match pyParseInt s with
    | some n => .ok n
    | none => .error .valueError
  | .error e => .error e

/-- `pkg_map[i] = int(open(path).read().strip())` wrapped in
`except (FileNotFoundError, ValueError): pkg_map[i] = 0`.
Other exceptions (e.g. `PermissionError`) propagate. -/
def pkgIdOf (r : ReadResult) : PyM ℤ :=
  match readPackageIdE r with
  | .ok n => .ok n
  | .error .fileNotFound => .ok 0
  | .error .valueError => .ok 0
  | .error e => .error e

/-- The `pkg_map` loop `for i in range(n)`, propagating uncaught exceptions. -/
def buildPkgMap (topo : ℕ → ReadResult) : ℕ → PyM (List ℤ)
  | 0 => .ok []
  | n + 1 =>
    match buildPkgMap topo n with
    | .ok l =>
      match pkgIdOf (topo n) with
      | .ok v => .ok (l ++ [v])
      | .error e => .error e
    | .error e => .error e

/-- Body of `_linux_get_per_cpu_usage` inside its `try`. -/
def linuxPerCpuUsageE (topo : ℕ → ReadResult) (perCpu : List ℚ) :
    PyM (List (ℤ × ℚ)) :=
  if perCpu.isEmpty then .ok []
  else
    match buildPkgMap topo perCpu.length with
    | .ok pkgMap =>
      .ok ((groupBy (pkgMap.zip perCpu)).map fun p => (p.1, qMean p.2))
    | .error e => .error e

/-- `_linux_get_per_cpu_usage()`: the outer `except Exception` returns `{}`. -/
def linuxPerCpuUsage (topo : ℕ → ReadResult) (perCpu : List ℚ) : List (ℤ × ℚ) :=
  match linuxPerCpuUsageE topo perCpu with
  | .ok m => m
  | .error _ => []

/-- Body of `_linux_get_per_cpu_frequencies` inside its `try`. -/
def linuxPerCpuFreqsE (topo : ℕ → ReadResult) (perCpu : List FreqPair) :
    PyM (List (ℤ × ℚ)) :=
  if perCpu.isEmpty then .ok []
  else
    match buildPkgMap topo perCpu.length with
    | .ok pkgMap =>
      .ok ((groupBy (pkgMap.zip (perCpu.map FreqPair.current))).map
        fun p => (p.1, qMean p.2))
    | .error e => .error e

/-- `_linux_get_per_cpu_frequencies()`: per-package mean of current MHz. -/
def linuxPerCpuFreqs (topo : ℕ → ReadResult) (perCpu : List FreqPair) :
    List (ℤ × ℚ) :=
  match linuxPerCpuFreqsE topo perCpu with
  | .ok m => m
  | .error _ => []

/-- The sysfs fallback read for one max-frequency file: value in KHz divided
by 1000; any exception in the `with open` block is swallowed (`except
Exception: pass`), yielding `none`. -/
def readKhz (r : ReadResult) : Option ℚ :=
  match r with
  | .found s => (pyParseInt s).map fun n => (n : ℚ) / 1000
  | _ => none

/-- Max MHz of one logical CPU: `freq.max if freq.max else 0`, then if that is
`<= 0`, try `cpuinfo_max_freq` then `scaling_max_freq` (first successful parse
wins via `break`), else keep the non-positive value. -/
def cpuMaxMhz (fmax : ℚ) (ci sc : ReadResult) : ℚ :=
  let m := if fmax ≠ 0 then fmax else 0
  if m ≤ 0 then
    match readKhz ci with
    | some v => v
    | none =>
      match readKhz sc with
      | some v => v
      | none => m
  else m

/-- Body of `_linux_get_per_cpu_max_frequencies` inside its `try`:
only positive per-CPU max values are grouped (`if max_mhz > 0`), and each
package reports the max over its logical CPUs. -/
def linuxPerCpuMaxFreqsE (topo ci sc : ℕ → ReadResult) (perCpu : List FreqPair) :
    PyM (List (ℤ × ℚ)) :=
  if perCpu.isEmpty then .ok []
  else
    match buildPkgMap topo perCpu.length with
    | .ok pkgMap =>
      let vals := perCpu.enum.map fun p => cpuMaxMhz p.2.fmax (ci p.1) (sc p.1)
      let pairs := (pkgMap.zip vals).filter fun p => decide (0 < p.2)
      .ok ((groupBy pairs).map fun p => (p.1, listMaxQ p.2))
    | .error e => .error e

/-- `_linux_get_per_cpu_max_frequencies()`. -/
def linuxPerCpuMaxFreqs (topo ci sc : ℕ → ReadResult) (perCpu : List FreqPair) :
    List (ℤ × ℚ) :=
  match linuxPerCpuMaxFreqsE topo ci sc perCpu with
  | .ok m => m
  | .error _ => []

-- ---------------------------------------------------------------------------
-- Linux helpers: temperatures, fans, memory clock
-- ---------------------------------------------------------------------------

/-- The coretemp scan: for every entry whose lowered label contains
`package`, parse the last whitespace-separated word of the lowered label as
the package id (`ValueError` / `IndexError` skip the entry). -/
def coretempPackages (entries : List TempEntry) : List (ℤ × ℚ) :=
  entries.foldl
    (fun temps entry =>
      let label := toLowerL entry.label.data
      if pyContainsL label ("package".data) then
        match (pyWords label).getLast? with
        | some w =>
          match pyParseIntChars w with
          | some n => dictSet temps n entry.current
          | none => temps
        | none => temps
      else temps)
    []

/-- The coretemp fallback when no package entries were found: the first entry
whose label starts with `Core` becomes package 0 (`setdefault`). -/
def coretempCoreFallback (entries : List TempEntry) : List (ℤ × ℚ) :=
  entries.foldl
    (fun temps entry =>
      if pyStartsWith entry.label ("Core") then
        dictSetDefault temps 0 entry.current
      else temps)
    []

/-- One pass of the AMD loop body: `if key in sensor_temps and not temps:
for i, entry in enumerate(...): temps[i] = entry.current`. -/
def addAmdTemps (temps : List (ℤ × ℚ)) (sensorTemps : List (String × List TempEntry))
    (key : String) : List (ℤ × ℚ) :=
  match sensorTemps.lookup key with
  | some entries =>
    if temps.isEmpty then
      entries.enum.foldl (fun t p => dictSet t (p.1 : ℤ) p.2.current) temps
    else temps
  | none => temps

/-- `_linux_get_cpu_temperatures()`: `{physical_package_id: temperature}` from
coretemp (with the Core fallback) or k10temp / zenpower. Every step is inside
`try ... except Exception`, and nothing in the embedded data can raise, so the
function is total. -/
def linuxGetCpuTemperatures (sensorTemps : List (String × List TempEntry)) :
    List (ℤ × ℚ) :=
  let temps :=
    match sensorTemps.lookup ("coretemp") with
    | some entries =>
      let t := coretempPackages entries
      if t.isEmpty then coretempCoreFallback entries else t
    | none => []
  let temps := addAmdTemps temps sensorTemps ("k10temp")
  addAmdTemps temps sensorTemps ("zenpower")

/-- `_linux_get_fan_speeds()`: `{fan.label: fan.current}` for the nct6779
chip, `{}` when the chip is absent (or `psutil` raised). -/
def linuxGetFanSpeeds (fans : List (String × List FanEntry)) :
    List (String × ℚ) :=
  match fans.lookup ("nct6779") with
  | some entries => entries.foldl (fun d f => dictSetS d f.label f.current) []
  | none => []

/-- Scan of one `dmidecode -t memory` output: collect the positive integer
values of `Configured Memory Speed:` / `Configured Clock Speed:` lines.
A matching line with nothing after the colon indexes an empty split and
raises `IndexError` (caught by the method's `except Exception`). -/
def dmidecodeSpeeds (out : String) : PyM (List ℤ) :=
  (splitLines out.data).foldl
    (fun acc line =>
      match acc with
      | .error e => .error e
      | .ok speeds =>
        let l := trimChars line
        if pyStartsWithL l ("Configured Memory Speed:".data) ||
           pyStartsWithL l ("Configured Clock Speed:".data) then
          match (splitOnChar ':' l)[1]? with
          | some seg =>
            match pyWords (trimChars seg) with
            | [] => .error .indexError
            | w :: _ =>
              if isDigitStr w && decide (0 < strToNat w) then
                .ok (speeds ++ [(strToNat w : ℤ)])
              else .ok speeds
          | none => .error .indexError
        else .ok speeds)
    (.ok [])

/-- Methods 1 and 2 of `_linux_get_memory_clock` share this shape: run
`dmidecode`, scan the output, and return `max(speeds)` when nonempty.
`none` means "fall through to the next method" (the subprocess raised, the
scan raised, or no speeds were found). -/
def dmidecodeMethod (outRes : Option String) : Option ℤ :=
  match outRes with
  | none => none
  | some out =>
    match dmidecodeSpeeds out with
    | .error _ => none
    | .ok [] => none
    | .ok speeds => some (listMaxZ speeds)

/-- Method 3 of `_linux_get_memory_clock`: first line containing
`Maximum module speed`, first whitespace word that is a digit string greater
than 100. -/
def decodeDimmsSpeed (out : String) : Option ℤ :=
  (splitLines out.data).findSome? fun line =>
    if pyContainsL line ("Maximum module speed".data) then
      (pyWords line).findSome? fun w =>
        if isDigitStr w && decide (100 < strToNat w) then some ((strToNat w : ℤ))
        else none
    else none

/-- `_linux_get_memory_clock()`: dmidecode, then `sudo -n dmidecode`, then
`decode-dimms`, else `0`. -/
def linuxGetMemoryClock (e : Env) : ℤ :=
  match dmidecodeMethod e.dmidecodeOut with
  | some v => v
  | none =>
    match dmidecodeMethod e.sudoDmidecodeOut with
    | some v => v
    | none =>
      match e.decodeDimmsOut.bind decodeDimmsSpeed with
      | some v => v
      | none => 0

-- ---------------------------------------------------------------------------
-- Per-metric state records (the class-level mutable fields)
-- ---------------------------------------------------------------------------

/-- Class fields of `Cpu{0,1}Percentage`, `Cpu{0,1}Temperature`,
`Cpu{0,1}FanSpeed` and `NvmeTemperature`: `value` (initially `0.0`, only ever
assigned actual numbers) and `last_val`. -/
structure MetricState where
  value : ℚ
  lastVal : List Val
  deriving DecidableEq

/-- Initial class-field state: `value = 0.0`, `last_val = [math.nan] * 10`. -/
def metricInit : MetricState where
  value := 0
  lastVal := histInit

/-- Class fields of `Cpu{0,1}Frequency`. -/
structure FreqState where
  value : ℚ
  lastVal : List Val
  maxFreq : ℚ
  maxFreqLoaded : Bool
  deriving DecidableEq

/-- Initial `Cpu{0,1}Frequency` class fields. -/
def freqInit : FreqState where
  value := 0
  lastVal := histInit
  maxFreq := 0
  maxFreqLoaded := false

/-- Class fields of `MemoryClockSpeed`. -/
structure MemState where
  value : ℚ
  cached : Bool
  deriving DecidableEq

/-- Initial `MemoryClockSpeed` class fields. -/
def memInit : MemState where
  value := 0
  cached := false

/-- Class fields of `DiskReadSpeed` / `DiskWriteSpeed`. -/
structure DiskState where
  value : ℚ
  prevBytes : Option ℤ
  prevTime : Option ℚ
  lastVal : List Val
  deriving DecidableEq

/-- Initial disk-speed class fields. -/
def diskInit : DiskState where
  value := 0
  prevBytes := none
  prevTime := none
  lastVal := histInit

/-- Fields of `ExampleCustomNumericData`: the class-level `last_val` list and
the `self.value` instance attribute, which does not exist before the first
`as_numeric` call. -/
structure ExampleState where
  value : Option ℚ
  lastVal : List Val
  deriving DecidableEq

/-- Initial `ExampleCustomNumericData` state: `last_val = [math.nan] * 10`,
`self.value` unset. -/
def exampleInit : ExampleState where
  value := none
  lastVal := histInit

/-- `ExampleCustomNumericData.as_numeric`: sets `self.value = 75.845`,
appends it to `last_val`, pops the oldest entry and returns it. -/
def exampleCustomNumericData_asNumeric (st : ExampleState) : ExampleState × Val :=
  ({ value := some (75845 / 1000), lastVal := pushHist st.lastVal (.num (75845 / 1000)) },
   .num (75845 / 1000))

-- ---------------------------------------------------------------------------
-- as_numeric: one embedded function per sensor class
-- (`Cpu0…`/`Cpu1…` classes are textually identical up to the index, so they
-- are embedded as one index-parameterised function each.)
-- ---------------------------------------------------------------------------

/-- `Cpu{idx}Percentage.as_numeric`. -/
def cpuPercentage_asNumericE (idx : ℕ) (e : Env) (st : MetricState) :
    PyM (MetricState × Val) :=
  match e.plat with
  | .linux =>
    match (linuxPerCpuUsage e.topoFile e.perCpuPercent).lookup (idx : ℤ) with
    | some u => .ok ({ value := u, lastVal := pushHist st.lastVal (.num u) }, .num u)
    | none => .ok (st, .nan)
  | .windows =>
    match getCpuByIdxLhm e.lhm idx with
    | some cpu =>
      match findSensorLhm (some cpu) .load none (some ("CPU Total")) with
      | some s =>
        match pyFloat s.value with
        | .ok q =>
          .ok ({ value := q, lastVal := pushHist st.lastVal (.num q) }, .num q)
        | .error err => .error err
      | none => .ok (st, .nan)
    | none => .ok (st, .nan)
  | .otherOS => .ok (st, .nan)

/-- The ordered name-starting-text candidates for CPU temperature sensors. -/
def tempNameCandidates : List String :=
  ["Core Average", "Core Max", "CPU Package", "Core"]

/-- `Cpu{idx}Temperature.as_numeric`. -/
def cpuTemperature_asNumericE (idx : ℕ) (e : Env) (st : MetricState) :
    PyM (MetricState × Val) :=
  match e.plat with
  | .linux =>
    match (linuxGetCpuTemperatures e.sensorTemps).lookup (idx : ℤ) with
    | some t => .ok ({ value := t, lastVal := pushHist st.lastVal (.num t) }, .num t)
    | none => .ok (st, .nan)
  | .windows =>
    match getCpuByIdxLhm e.lhm idx with
    | some cpu =>
      match tempNameCandidates.findSome?
          (fun p => findSensorLhm (some cpu) .temperature none (some p)) with
      | some s =>
        match pyFloat s.value with
        | .ok q =>
          .ok ({ value := q, lastVal := pushHist st.lastVal (.num q) }, .num q)
        | .error err => .error err
      | none => .ok (st, .nan)
    | none => .ok (st, .nan)
  | .otherOS => .ok (st, .nan)

/-- The Windows clock-sensor collection of `Cpu{idx}Frequency.as_numeric`:
clock sensors whose name contains `Core #` but not `Effective`, with a
present value. -/
def windowsCoreClocks (cpu : LHardware) : List ℚ :=
  cpu.sensors.filterMap fun s =>
    match s.value with
    | some q =>
      if decide (s.stype = .clock) && pyContains s.name ("Core #") &&
         !pyContains s.name ("Effective") then some q
      else none
    | none => none

/-- The `_max_freq_loaded` block at the top of `Cpu{idx}Frequency.as_numeric`:
on the first call the flag is set unconditionally, and on Linux `max_freq` is
stored when the per-package lookup succeeds. -/
def freqLoadMax (idx : ℕ) (e : Env) (st : FreqState) : FreqState :=
  if st.maxFreqLoaded then st
  else
    let st := { st with maxFreqLoaded := true }
    match e.plat with
    | .linux =>
      match (linuxPerCpuMaxFreqs e.topoFile e.cpuinfoMaxFile e.scalingMaxFile
          e.perCpuFreq).lookup (idx : ℤ) with
      | some m => { st with maxFreq := m }
      | none => st
    | _ => st

/-- The Windows branch of `Cpu{idx}Frequency.as_numeric` once the CPU node is
found: `if frequencies: value = mean(frequencies); append; return value`,
falling through to `return math.nan` when no clock sensor qualified. -/
def freqWindowsBranch (cpu : LHardware) (st : FreqState) : PyM (FreqState × Val) :=
  if (windowsCoreClocks cpu).isEmpty then .ok (st, .nan)
  else
    .ok
      ({ st with
          value := qMean (windowsCoreClocks cpu)
          lastVal := pushHist st.lastVal (.num (qMean (windowsCoreClocks cpu))) },
        .num (qMean (windowsCoreClocks cpu)))

/-- `Cpu{idx}Frequency.as_numeric`. -/
def cpuFrequency_asNumericE (idx : ℕ) (e : Env) (st : FreqState) :
    PyM (FreqState × Val) :=
  let st := freqLoadMax idx e st
  match e.plat with
  | .linux =>
    match (linuxPerCpuFreqs e.topoFile e.perCpuFreq).lookup (idx : ℤ) with
    | some f => .ok ({ st with value := f, lastVal := pushHist st.lastVal (.num f) }, .num f)
    | none => .ok (st, .nan)
  | .windows =>
    match getCpuByIdxLhm e.lhm idx with
    | some cpu => freqWindowsBranch cpu st
    | none => .ok (st, .nan)
  | .otherOS => .ok (st, .nan)

/-- The Windows search of `MemoryClockSpeed.as_numeric`: first clock sensor
with a present value on a Memory hardware unit. -/
def memWindowsSearch (hws : List LHardware) : Option ℚ :=
  hws.findSome? fun hw =>
    if decide (hw.htype = .memory) then
      hw.sensors.findSome? fun s =>
        if decide (s.stype = .clock) then s.value else none
    else none

/-- The Linux branch of `MemoryClockSpeed.as_numeric` after
`speed = _linux_get_memory_clock()`: only a positive speed is stored and
cached; otherwise control falls through to `return math.nan`. -/
def memLinuxBranch (speed : ℤ) (st : MemState) : PyM (MemState × Val) :=
  if 0 < speed then
    .ok ({ value := (speed : ℚ), cached := true }, .num (speed : ℚ))
  else .ok (st, .nan)

/-- `MemoryClockSpeed.as_numeric`: memo guard `_cached and value > 0`, then a
platform-specific query; a successful query stores the value and sets
`_cached`. -/
def memoryClockSpeed_asNumericE (e : Env) (st : MemState) : PyM (MemState × Val) :=
  if st.cached ∧ 0 < st.value then .ok (st, .num st.value)
  else
    match e.plat with
    | .linux => memLinuxBranch (linuxGetMemoryClock e) st
    | .windows =>
      match e.lhm with
      | some hws =>
        match memWindowsSearch hws with
        | some q => .ok ({ value := q, cached := true }, .num q)
        | none => .ok (st, .nan)
      | none => .ok (st, .nan)
    | .otherOS => .ok (st, .nan)

/-- Shared body of `DiskReadSpeed.as_numeric` / `DiskWriteSpeed.as_numeric`:
compute the rate when a previous sample exists and the elapsed time is
positive, store the current sample unconditionally, append to history and
return the stored value. -/
def diskNewValue (curBytes : ℤ) (now : ℚ) (st : DiskState) : ℚ :=
  match st.prevBytes, st.prevTime with
  | some pb, some pt =>
    if 0 < now - pt then ((curBytes - pb : ℤ) : ℚ) / (now - pt) / (1024 * 1024)
    else st.value
  | _, _ => st.value

/-- See `diskNewValue` for the rate computation; this wraps it with the
unconditional sample overwrite, the history append and the return. -/
def diskSpeed_asNumericE (curBytes : ℤ) (now : ℚ) (st : DiskState) :
    PyM (DiskState × Val) :=
  .ok ({ value := diskNewValue curBytes now st, prevBytes := some curBytes,
         prevTime := some now,
         lastVal := pushHist st.lastVal (.num (diskNewValue curBytes now st)) },
       .num (diskNewValue curBytes now st))

/-- `DiskReadSpeed.as_numeric`: the unguarded `counters.read_bytes` attribute
access raises `AttributeError` when `psutil.disk_io_counters()` returned
`None` (every path of the body touches the attribute before mutating state,
so the raise leaves the class fields untouched). -/
def diskReadSpeed_asNumericE (e : Env) (st : DiskState) : PyM (DiskState × Val) :=
  match countersReadBytes e.diskCounters with
  | .ok b => diskSpeed_asNumericE b e.timeNow st
  | .error err => .error err

/-- `DiskWriteSpeed.as_numeric`; see `diskReadSpeed_asNumericE`. -/
def diskWriteSpeed_asNumericE (e : Env) (st : DiskState) : PyM (DiskState × Val) :=
  match countersWriteBytes e.diskCounters with
  | .ok b => diskSpeed_asNumericE b e.timeNow st
  | .error err => .error err

/-- `Cpu{0,1}FanSpeed.as_numeric` for the given nct6779 fan label
(`fan1` for CPU 0, `fan2` for CPU 1): on Linux the value becomes
`fans.get(label, 0)`; the (possibly unchanged) value is always appended to
history and returned. -/
def fanNewValue (label : String) (e : Env) (st : MetricState) : ℚ :=
  match e.plat with
  | .linux => ((linuxGetFanSpeeds e.fans).lookup label).getD 0
  | _ => st.value

/-- See `fanNewValue`; the append and return are unconditional. -/
def cpuFanSpeed_asNumericE (label : String) (e : Env) (st : MetricState) :
    PyM (MetricState × Val) :=
  .ok ({ value := fanNewValue label e st,
         lastVal := pushHist st.lastVal (.num (fanNewValue label e st)) },
       .num (fanNewValue label e st))

/-- The nvme Composite scan of `NvmeTemperature.as_numeric`. -/
def nvmeComposite (sensorTemps : List (String × List TempEntry)) : Option ℚ :=
  match sensorTemps.lookup ("nvme") with
  | some entries => (entries.find? fun t => t.label == "Composite").map TempEntry.current
  | none => none

/-- `NvmeTemperature.as_numeric`: on Linux, take the Composite temperature
when present (otherwise the value stays); always append and return. -/
def nvmeNewValue (e : Env) (st : MetricState) : ℚ :=
  match e.plat with
  | .linux =>
    match nvmeComposite e.sensorTemps with
    | some q => q
    | none => st.value
  | _ => st.value

/-- See `nvmeNewValue`; the append and return are unconditional. -/
def nvmeTemperature_asNumericE (e : Env) (st : MetricState) :
    PyM (MetricState × Val) :=
  .ok ({ value := nvmeNewValue e st,
         lastVal := pushHist st.lastVal (.num (nvmeNewValue e st)) },
       .num (nvmeNewValue e st))

-- ---------------------------------------------------------------------------
-- Python fixed-point float formatting (the f-string `{x:>W.Pf}` mini-language)
-- ---------------------------------------------------------------------------

/-- The decimal digit character for `n % 10`. -/
def digitChar (n : ℕ) : Char := Char.ofNat (48 + n % 10)

/-- Decimal digits of a natural number, most significant first. -/
def natDigits (n : ℕ) : List Char :=
  if _h : n < 10 then [digitChar n]
  else natDigits (n / 10) ++ [digitChar (n % 10)]
decreasing_by exact Nat.div_lt_self (by omega) (by omega)

/-- Round half to even, as IEEE/Python formatting does on exact halves. -/
def roundHalfEven (q : ℚ) : ℤ :=
  if q - (⌊q⌋ : ℚ) < 1 / 2 then ⌊q⌋
  else if 1 / 2 < q - (⌊q⌋ : ℚ) then ⌊q⌋ + 1
  else if ⌊q⌋ % 2 = 0 then ⌊q⌋ else ⌊q⌋ + 1

/-- Left-pad a digit list with zeros to the given length. -/
def leftPadZeros (k : ℕ) (ds : List Char) : List Char :=
  List.replicate (k - ds.length) '0' ++ ds

/-- The unpadded fixed-point rendering of `q` with `prec` fractional digits:
sign, integer digits, and (when `prec > 0`) a point plus exactly `prec`
fractional digits of the half-even-rounded scaled value. -/
def pyFormatCore (prec : ℕ) (q : ℚ) : List Char :=
  (if q < 0 then ['-'] else []) ++
  natDigits ((roundHalfEven (|q| * (10 : ℚ) ^ prec)).toNat / 10 ^ prec) ++
  (if prec = 0 then []
   else '.' ::
     leftPadZeros prec (natDigits ((roundHalfEven (|q| * (10 : ℚ) ^ prec)).toNat % 10 ^ prec)))

/-- `f-string` formatting `{q:>W.Pf}`: fixed-point with `prec` fractional
digits, right-aligned in a field of `width` spaces. -/
def pyFormat (width prec : ℕ) (q : ℚ) : String :=
  ⟨List.replicate (width - (pyFormatCore prec q).length) ' ' ++ pyFormatCore prec q⟩

-- ---------------------------------------------------------------------------
-- as_string: one embedded function per sensor class
-- ---------------------------------------------------------------------------

/-- `Cpu{idx}Percentage.as_string`: `f-string` `{value:.0f}%`. -/
def cpuPercentage_asString (st : MetricState) : String :=
  pyFormat 0 0 st.value ++ "%"

/-- `Cpu{idx}Temperature.as_string`: `f-string` `{value:.0f}` degrees C. -/
def cpuTemperature_asString (st : MetricState) : String :=
  pyFormat 0 0 st.value ++ "°C"

/-- `Cpu{idx}Frequency.as_string`: `cur/max GHz` when a max frequency is
cached, otherwise `{value/1000:>4.2f} GHz`. -/
def cpuFrequency_asString (st : FreqState) : String :=
  if 0 < st.maxFreq then
    pyFormat 0 2 (st.value / 1000) ++ "/" ++ pyFormat 0 2 (st.maxFreq / 1000) ++ " GHz"
  else
    pyFormat 4 2 (st.value / 1000) ++ " GHz"

/-- `MemoryClockSpeed.as_string`. -/
def memoryClockSpeed_asString (st : MemState) : String :=
  if 0 < st.value then pyFormat 4 0 st.value ++ " MHz" else "N/A"

/-- `DiskReadSpeed.as_string` / `DiskWriteSpeed.as_string` (identical bodies):
`{value:>5.1f} MB/s`, switching to GB/s at 1000. -/
def diskSpeed_asString (st : DiskState) : String :=
  if 1000 ≤ st.value then pyFormat 5 1 (st.value / 1024) ++ " GB/s"
  else pyFormat 5 1 st.value ++ " MB/s"

/-- `Cpu{0,1}FanSpeed.as_string`. -/
def cpuFanSpeed_asString (st : MetricState) : String :=
  pyFormat 0 0 st.value ++ " RPM"

/-- `NvmeTemperature.as_string`. -/
def nvmeTemperature_asString (st : MetricState) : String :=
  pyFormat 0 0 st.value ++ "°C"

-- ---------------------------------------------------------------------------
-- Helper lemmas
-- ---------------------------------------------------------------------------

/-- Any sensor returned by `_find_sensor_lhm` has a present value. -/
theorem findSensorLhm_value_isSome {hw : Option LHardware} {t : SensorType}
    {nc ns : Option String} {s : LSensor}
    (h : findSensorLhm hw t nc ns = some s) : s.value.isSome := by
  unfold findSensorLhm at h
  match hw with
  | none => exact absurd h (by simp)
  | some hwu =>
    have hp := List.find?_some h
    simp only [Bool.and_eq_true] at hp
    exact hp.1.1.2

/-- Any sensor produced by the candidate scan of the temperature fallback
resolver has a present value. -/
theorem tempScan_value_isSome {cands : List String} {cpu : LHardware} {s : LSensor}
    (h : cands.findSome? (fun p => findSensorLhm (some cpu) .temperature none (some p)) =
      some s) : s.value.isSome := by
  induction cands with
  | nil => exact absurd h (by simp)
  | cons c cs ih =>
    rw [List.findSome?_cons] at h
    revert h
    cases hc : findSensorLhm (some cpu) .temperature none (some c) with
    | none => exact fun h => ih h
    | some s' => intro h; cases h; exact findSensorLhm_value_isSome hc

/-- Folding the append-then-pop history update is a suffix window over the
initial buffer followed by all appended values. -/
theorem foldl_pushHist (h : List Val) (vs : List Val) :
    List.foldl pushHist h vs = (h ++ vs).drop vs.length := by
  induction vs generalizing h with
  | nil => simp
  | cons v vs ih =>
    rw [List.foldl_cons, ih]
    show ((pushHist h v) ++ vs).drop vs.length = (h ++ v :: vs).drop (vs.length + 1)
    unfold pushHist
    rw [← List.drop_append_of_le_length (by simp), List.drop_drop]
    simp only [List.append_assoc, List.singleton_append]
    rw [Nat.add_comm]

/-- `natDigits` always produces at least one digit. -/
theorem natDigits_length_pos (n : ℕ) : 0 < (natDigits n).length := by
  unfold natDigits
  split
  · simp
  · simp

/-- One digit for a single-digit number. -/
theorem natDigits_of_lt_ten {n : ℕ} (h : n < 10) : natDigits n = [digitChar n] := by
  unfold natDigits
  rw [dif_pos h]

/-- `n < 10 ^ k` means at most `k` digits (for positive `k`). -/
theorem natDigits_length_le {k n : ℕ} (h : n < 10 ^ k) (hk : 0 < k) :
    (natDigits n).length ≤ k := by
  induction k generalizing n with
  | zero => omega
  | succ k ih =>
    by_cases h10 : n < 10
    · rw [natDigits_of_lt_ten h10]
      simp
    · unfold natDigits
      rw [dif_neg h10]
      rcases Nat.eq_zero_or_pos k with hk0 | hkpos
      · subst hk0
        simp at h
        omega
      · have hdiv : n / 10 < 10 ^ k := by
          rw [Nat.div_lt_iff_lt_mul (by norm_num)]
          calc n < 10 ^ (k + 1) := h
            _ = 10 ^ k * 10 := by ring
        have := ih hdiv hkpos
        simp only [List.length_append, List.length_cons, List.length_nil]
        omega

/-- Half-even rounding is within one half above the argument. -/
theorem roundHalfEven_le (q : ℚ) : (roundHalfEven q : ℚ) ≤ q + 1 / 2 := by
  unfold roundHalfEven
  have h1 : (⌊q⌋ : ℚ) ≤ q := Int.floor_le q
  have h2 : q < ⌊q⌋ + 1 := Int.lt_floor_add_one q
  split_ifs <;> push_cast <;> linarith

/-- Half-even rounding is within one half below the argument. -/
theorem le_roundHalfEven (q : ℚ) : q - 1 / 2 ≤ (roundHalfEven q : ℚ) := by
  unfold roundHalfEven
  have h1 : (⌊q⌋ : ℚ) ≤ q := Int.floor_le q
  have h2 : q < ⌊q⌋ + 1 := Int.lt_floor_add_one q
  split_ifs <;> push_cast <;> linarith

/-- Half-even rounding of a nonnegative number is nonnegative. -/
theorem roundHalfEven_nonneg {q : ℚ} (h : 0 ≤ q) : 0 ≤ roundHalfEven q := by
  unfold roundHalfEven
  have h1 : (0 : ℤ) ≤ ⌊q⌋ := Int.le_floor.mpr (by exact_mod_cast h)
  split_ifs <;> omega

/-- The padded string of `pyFormat` has length `max width (core length)`. -/
theorem pyFormat_length (width prec : ℕ) (q : ℚ) :
    (pyFormat width prec q).length = max width (pyFormatCore prec q).length := by
  show (List.replicate (width - (pyFormatCore prec q).length) ' ' ++
    pyFormatCore prec q).length = _
  simp only [List.length_append, List.length_replicate]
  omega

/-- The max-frequency block never touches `value` or `last_val`. -/
theorem freqLoadMax_preserves (idx : ℕ) (e : Env) (st : FreqState) :
    (freqLoadMax idx e st).value = st.value ∧
    (freqLoadMax idx e st).lastVal = st.lastVal := by
  unfold freqLoadMax
  repeat' split
  all_goals simp_all

/-- Folding at least 10 produced values over the initial buffer keeps exactly
the last 10, oldest first. -/
theorem foldl_pushHist_window (vs : List Val) (h10 : 10 ≤ vs.length) :
    List.foldl pushHist histInit vs = vs.drop (vs.length - 10) := by
  rw [foldl_pushHist]
  have h := @List.drop_append Val histInit vs (vs.length - 10)
  rw [show histInit.length + (vs.length - 10) = vs.length by
    simp only [histInit, List.length_replicate]; omega] at h
  exact h

-- ---------------------------------------------------------------------------
-- Concrete environments used by examples, witnesses and counterexamples
-- ---------------------------------------------------------------------------

/-- Topology files mapping logical CPUs `[0, 1, 2, 3]` to packages
`[0, 0, 1, 1]`. -/
def topoPkg0011 : ℕ → ReadResult := fun i =>
  if i < 2 then .found "0" else .found "1"

/-- Linux environment with one logical CPU on package 0 at 50 % load. -/
def envLinuxPerc : Env :=
  { envDefault with
      plat := .linux
      topoFile := fun _ => .found "0"
      perCpuPercent := [50] }

/-- Windows environment whose CPU 0 exposes a live `CPU Total` load sensor. -/
def envWinPerc : Env :=
  { envDefault with
      plat := .windows
      lhm := some [⟨.cpu, [⟨.load, "CPU Total", some 50⟩]⟩] }

/-- Concrete environment whose disk counters are present (both at 0). -/
def envDiskPresent : Env :=
  { envDefault with
      plat := .linux
      diskCounters := some ⟨0, 0⟩
      timeNow := 1 }

/-- Windows environment whose CPU 0 exposes live temperature sensors
`Core Max #1` (55) and `CPU Package` (60). -/
def envWinTemp : Env :=
  { envDefault with
      plat := .windows
      lhm := some [⟨.cpu, [⟨.temperature, "Core Max #1", some 55⟩,
                           ⟨.temperature, "CPU Package", some 60⟩]⟩] }

/-- Windows environment whose CPU 0 exposes only a live `CPU Package` sensor. -/
def envWinTempPkgOnly : Env :=
  { envDefault with
      plat := .windows
      lhm := some [⟨.cpu, [⟨.temperature, "CPU Package", some 60⟩]⟩] }

/-- Windows environment where `Core Max #1` exists but has no value, so only
`CPU Package` (60) is live. -/
def envWinTempDeadMax : Env :=
  { envDefault with
      plat := .windows
      lhm := some [⟨.cpu, [⟨.temperature, "Core Max #1", none⟩,
                           ⟨.temperature, "CPU Package", some 60⟩]⟩] }

-- ---------------------------------------------------------------------------
-- Claim theorems
-- ---------------------------------------------------------------------------

/-- Claim C2: every metric with history support starts with a buffer of fixed
length 10, every slot NaN; after at least 10 produced values the buffer holds
exactly the last 10 produced values in call order, oldest first, with length
still 10; and for each such metric — load, temperature, frequency, disk read,
disk write, fan, NVMe and the example class — every value-producing
`as_numeric` call appends its produced value (append then drop oldest). -/
theorem c2_history_buffer :
    histInit.length = 10 ∧
    (∀ v ∈ histInit, v = Val.nan) ∧
    metricInit.lastVal = histInit ∧
    freqInit.lastVal = histInit ∧
    diskInit.lastVal = histInit ∧
    exampleInit.lastVal = histInit ∧
    (∀ vs : List Val, 10 ≤ vs.length →
      List.foldl pushHist histInit vs = vs.drop (vs.length - 10) ∧
      (List.foldl pushHist histInit vs).length = 10) ∧
    (∀ idx e st st' q, cpuPercentage_asNumericE idx e st = .ok (st', Val.num q) →
      st'.lastVal = pushHist st.lastVal (Val.num q)) ∧
    (∀ idx e st st' q, cpuTemperature_asNumericE idx e st = .ok (st', Val.num q) →
      st'.lastVal = pushHist st.lastVal (Val.num q)) ∧
    (∀ idx e st st' q, cpuFrequency_asNumericE idx e st = .ok (st', Val.num q) →
      st'.lastVal = pushHist st.lastVal (Val.num q)) ∧
    (∀ e st st' q, diskReadSpeed_asNumericE e st = .ok (st', Val.num q) →
      st'.lastVal = pushHist st.lastVal (Val.num q)) ∧
    (∀ e st st' q, diskWriteSpeed_asNumericE e st = .ok (st', Val.num q) →
      st'.lastVal = pushHist st.lastVal (Val.num q)) ∧
    (∀ label e st st' q, cpuFanSpeed_asNumericE label e st = .ok (st', Val.num q) →
      st'.lastVal = pushHist st.lastVal (Val.num q)) ∧
    (∀ e st st' q, nvmeTemperature_asNumericE e st = .ok (st', Val.num q) →
      st'.lastVal = pushHist st.lastVal (Val.num q)) ∧
    (∀ st st' v, exampleCustomNumericData_asNumeric st = (st', v) →
      st'.lastVal = pushHist st.lastVal v) := by
  refine ⟨rfl, by decide, rfl, rfl, rfl, rfl,
    fun vs h10 => ⟨foldl_pushHist_window vs h10, ?_⟩,
    ?_, ?_, ?_, ?_, ?_, ?_, ?_, ?_⟩
  · rw [foldl_pushHist_window vs h10, List.length_drop]
    omega
  · intro idx e st st' q h
    unfold cpuPercentage_asNumericE at h
    repeat' split at h
    all_goals simp_all
    all_goals obtain ⟨h1, h2⟩ := h
    all_goals subst h1
    all_goals subst h2
    all_goals rfl
  · intro idx e st st' q h
    unfold cpuTemperature_asNumericE at h
    repeat' split at h
    all_goals simp_all
    all_goals obtain ⟨h1, h2⟩ := h
    all_goals subst h1
    all_goals subst h2
    all_goals rfl
  · intro idx e st st' q h
    unfold cpuFrequency_asNumericE freqWindowsBranch at h
    repeat' split at h
    all_goals simp_all
    all_goals obtain ⟨h1, h2⟩ := h
    all_goals subst h1
    all_goals subst h2
    all_goals show pushHist (freqLoadMax idx e st).lastVal _ = pushHist st.lastVal _
    all_goals rw [(freqLoadMax_preserves idx e st).2]
  · intro e st st' q h
    unfold diskReadSpeed_asNumericE countersReadBytes diskSpeed_asNumericE at h
    repeat' split at h
    all_goals simp_all
    obtain ⟨h1, h2⟩ := h
    subst h1
    subst h2
    rfl
  · intro e st st' q h
    unfold diskWriteSpeed_asNumericE countersWriteBytes diskSpeed_asNumericE at h
    repeat' split at h
    all_goals simp_all
    obtain ⟨h1, h2⟩ := h
    subst h1
    subst h2
    rfl
  · intro label e st st' q h
    unfold cpuFanSpeed_asNumericE at h
    simp_all
    obtain ⟨h1, h2⟩ := h
    subst h1
    subst h2
    rfl
  · intro e st st' q h
    unfold nvmeTemperature_asNumericE at h
    simp_all
    obtain ⟨h1, h2⟩ := h
    subst h1
    subst h2
    rfl
  · intro st st' v h
    unfold exampleCustomNumericData_asNumeric at h
    simp_all
    obtain ⟨h1, h2⟩ := h
    subst h1
    subst h2
    rfl

/-- Witness for C2: a concrete 11-value fold keeps the last 10, a concrete
successful load reading appends its value, a concrete disk-read call appends
its produced 0, and the example class appends 75.845. -/
theorem c2_history_buffer_witness :
    List.foldl pushHist histInit (List.replicate 11 (Val.num 3)) =
      (List.replicate 11 (Val.num 3)).drop 1 ∧
    ({ value := 50, lastVal := pushHist histInit (Val.num 50) } :
        MetricState).lastVal = pushHist metricInit.lastVal (Val.num 50) ∧
    ({ value := 0, prevBytes := some 0, prevTime := some 1,
        lastVal := pushHist histInit (Val.num 0) } : DiskState).lastVal =
      pushHist diskInit.lastVal (Val.num 0) ∧
    ({ value := some (75845 / 1000),
        lastVal := pushHist histInit (Val.num (75845 / 1000)) } :
        ExampleState).lastVal =
      pushHist exampleInit.lastVal (Val.num (75845 / 1000)) := by
  refine ⟨(c2_history_buffer.2.2.2.2.2.2.1 _ (by decide)).1, ?_, ?_, ?_⟩
  · exact c2_history_buffer.2.2.2.2.2.2.2.1 0 envWinPerc metricInit _ 50 (by rfl)
  · exact c2_history_buffer.2.2.2.2.2.2.2.2.2.2.1 envDiskPresent diskInit _ 0 (by rfl)
  · exact c2_history_buffer.2.2.2.2.2.2.2.2.2.2.2.2.2.2 exampleInit _ _ (by rfl)

/-- Linux environment whose topology files all fail with a non-FileNotFound
OS error (e.g. `PermissionError`), with four logical CPUs under load. -/
def envTopoIoErr : Env :=
  { envDefault with
      plat := .linux
      topoFile := fun _ => .ioError
      perCpuPercent := [10, 20, 60, 80] }

/-- Counterexample to C4: a topology file that is unreadable with a
non-FileNotFound OS error is not defaulted to package 0 — it escapes the
inner `except (FileNotFoundError, ValueError)` to the outer
`except Exception`, which discards the whole per-package map for the cycle,
so the load metric reports NaN instead of a package-0 aggregate. -/
theorem c4_counterexample :
    linuxPerCpuUsage (fun _ => .ioError) [10, 20, 60, 80] = [] ∧
    linuxPerCpuUsage (fun _ => .ioError) [10, 20, 60, 80] ≠ [(0, 85 / 2)] ∧
    cpuPercentage_asNumericE 0 envTopoIoErr metricInit = .ok (metricInit, Val.nan) := by
  refine ⟨rfl, ?_, rfl⟩
  intro hc
  rw [show linuxPerCpuUsage (fun _ => .ioError) [10, 20, 60, 80] =
    ([] : List (ℤ × ℚ)) from rfl] at hc
  exact absurd hc (by simp)

/-- Claim C4 as amended: the package grouping resolver groups logical CPUs by
the physical-package id parsed from topology metadata, defaults a CPU with a
missing (`FileNotFoundError`) or malformed (`ValueError`) topology file to
package 0, and aggregates load and current frequency by arithmetic mean and
max frequency by maximum; in particular topology `[0,0,1,1]` with loads
`[10,20,60,80]` yields package 0 at 15 and package 1 at 70. A topology file
unreadable with any other OS error is not defaulted: it aborts the whole
per-package map for that cycle (empty map, metric reports NaN). -/
theorem c4_amended_package_grouping_resolver :
    linuxPerCpuUsage topoPkg0011 [10, 20, 60, 80] = [(0, 15), (1, 70)] ∧
    linuxPerCpuFreqs topoPkg0011 [⟨1000, 0⟩, ⟨2000, 0⟩, ⟨3000, 0⟩, ⟨4000, 0⟩] =
      [(0, 1500), (1, 3500)] ∧
    linuxPerCpuMaxFreqs topoPkg0011 (fun _ => .notFound) (fun _ => .notFound)
      [⟨1000, 3000⟩, ⟨2000, 3100⟩, ⟨3000, 2500⟩, ⟨4000, 2600⟩] =
      [(0, 3100), (1, 2600)] ∧
    pkgIdOf .notFound = .ok 0 ∧
    pkgIdOf (.found "garbage") = .ok 0 ∧
    linuxPerCpuUsage (fun _ => .notFound) [10, 20, 60, 80] = [(0, 85 / 2)] ∧
    pkgIdOf .ioError = .error .oserror ∧
    linuxPerCpuUsage (fun _ => .ioError) [10, 20, 60, 80] = [] ∧
    cpuPercentage_asNumericE 0 envTopoIoErr metricInit = .ok (metricInit, Val.nan) := by
  refine ⟨?_, ?_, rfl, rfl, rfl, ?_, rfl, rfl, rfl⟩
  · have h : linuxPerCpuUsage topoPkg0011 [10, 20, 60, 80] =
        [(0, qMean [10, 20]), (1, qMean [60, 80])] := rfl
    rw [h]
    norm_num [qMean]
  · have h : linuxPerCpuFreqs topoPkg0011
        [⟨1000, 0⟩, ⟨2000, 0⟩, ⟨3000, 0⟩, ⟨4000, 0⟩] =
        [(0, qMean [1000, 2000]), (1, qMean [3000, 4000])] := rfl
    rw [h]
    norm_num [qMean]
  · have h : linuxPerCpuUsage (fun _ => .notFound) [10, 20, 60, 80] =
        [(0, qMean [10, 20, 60, 80])] := rfl
    rw [h]
    norm_num [qMean]

/-- Claim C5: CPU temperature on the hardware-tree path tries the ordered
candidate list `Core Average`, `Core Max`, `CPU Package`, `Core` and takes the
first sensor with a present value whose name starts with the earliest
matching candidate; with live sensors `Core Max #1` (55) and `CPU Package`
(60) it selects `Core Max #1`; with only `CPU Package` live it falls back to
it, and a value-less `Core Max #1` is skipped. -/
theorem c5_fallback_name_resolver :
    tempNameCandidates = ["Core Average", "Core Max", "CPU Package", "Core"] ∧
    cpuTemperature_asNumericE 0 envWinTemp metricInit =
      .ok ({ value := 55, lastVal := pushHist histInit (Val.num 55) }, Val.num 55) ∧
    cpuTemperature_asNumericE 0 envWinTempPkgOnly metricInit =
      .ok ({ value := 60, lastVal := pushHist histInit (Val.num 60) }, Val.num 60) ∧
    cpuTemperature_asNumericE 0 envWinTempDeadMax metricInit =
      .ok ({ value := 60, lastVal := pushHist histInit (Val.num 60) }, Val.num 60) := by
  refine ⟨rfl, rfl, rfl, rfl⟩

/-- The percentage metric never raises, for every environment and state. -/
theorem cpuPercentage_total (idx : ℕ) (e : Env) (st : MetricState) :
    ∃ out, cpuPercentage_asNumericE idx e st = .ok out := by
  unfold cpuPercentage_asNumericE
  repeat' split
  all_goals try exact ⟨_, rfl⟩
  rename_i x1 s hs x2 err herr
  obtain ⟨q, hq⟩ := Option.isSome_iff_exists.mp (findSensorLhm_value_isSome hs)
  rw [hq] at herr
  exact absurd herr (by simp [pyFloat])

/-- The temperature metric never raises, for every environment and state. -/
theorem cpuTemperature_total (idx : ℕ) (e : Env) (st : MetricState) :
    ∃ out, cpuTemperature_asNumericE idx e st = .ok out := by
  unfold cpuTemperature_asNumericE
  repeat' split
  all_goals try exact ⟨_, rfl⟩
  rename_i x1 s hs x2 err herr
  obtain ⟨q, hq⟩ := Option.isSome_iff_exists.mp (tempScan_value_isSome hs)
  rw [hq] at herr
  exact absurd herr (by simp [pyFloat])

/-- The frequency metric never raises, for every environment and state. -/
theorem cpuFrequency_total (idx : ℕ) (e : Env) (st : FreqState) :
    ∃ out, cpuFrequency_asNumericE idx e st = .ok out := by
  unfold cpuFrequency_asNumericE freqWindowsBranch
  repeat' split
  all_goals exact ⟨_, rfl⟩

/-- The memory-clock metric never raises, for every environment and state. -/
theorem memoryClockSpeed_total (e : Env) (st : MemState) :
    ∃ out, memoryClockSpeed_asNumericE e st = .ok out := by
  unfold memoryClockSpeed_asNumericE memLinuxBranch
  repeat' split
  all_goals exact ⟨_, rfl⟩

/-- Counterexample to C1: on a diskless system `psutil.disk_io_counters()`
returns `None`, and the disk metrics' unguarded `counters.read_bytes` /
`counters.write_bytes` attribute access raises `AttributeError`, which
propagates to the caller — `as_numeric` does raise. -/
theorem c1_counterexample :
    diskReadSpeed_asNumericE { envDefault with plat := .linux } diskInit =
      .error .attributeError ∧
    diskWriteSpeed_asNumericE { envDefault with plat := .linux } diskInit =
      .error .attributeError :=
  ⟨rfl, rfl⟩

/-- Claim C1 as amended: every metric class except the disk-speed classes
returns a float (a rational or NaN) and never raises, under every
environment — the hardware binding may be absent, sensors may be missing,
topology files may be missing, malformed or unreadable; the disk read/write
metrics never raise when `psutil.disk_io_counters()` returns counters, but
when it returns `None` (no disks) their attribute access raises
`AttributeError`, which propagates. -/
theorem c1_amended_numeric_never_raises :
    (∀ idx e st, ∃ out, cpuPercentage_asNumericE idx e st = .ok out) ∧
    (∀ idx e st, ∃ out, cpuTemperature_asNumericE idx e st = .ok out) ∧
    (∀ idx e st, ∃ out, cpuFrequency_asNumericE idx e st = .ok out) ∧
    (∀ e st, ∃ out, memoryClockSpeed_asNumericE e st = .ok out) ∧
    (∀ label e st, ∃ out, cpuFanSpeed_asNumericE label e st = .ok out) ∧
    (∀ e st, ∃ out, nvmeTemperature_asNumericE e st = .ok out) ∧
    (∀ e st c, e.diskCounters = some c →
      (∃ out, diskReadSpeed_asNumericE e st = .ok out) ∧
      (∃ out, diskWriteSpeed_asNumericE e st = .ok out)) ∧
    (∀ e st, e.diskCounters = none →
      diskReadSpeed_asNumericE e st = .error .attributeError ∧
      diskWriteSpeed_asNumericE e st = .error .attributeError) := by
  refine ⟨cpuPercentage_total, cpuTemperature_total, cpuFrequency_total,
    memoryClockSpeed_total, fun _ _ _ => ⟨_, rfl⟩, fun _ _ => ⟨_, rfl⟩, ?_, ?_⟩
  · intro e st c hc
    unfold diskReadSpeed_asNumericE diskWriteSpeed_asNumericE
      countersReadBytes countersWriteBytes
    rw [hc]
    exact ⟨⟨_, rfl⟩, ⟨_, rfl⟩⟩
  · intro e st hc
    unfold diskReadSpeed_asNumericE diskWriteSpeed_asNumericE
      countersReadBytes countersWriteBytes
    rw [hc]
    exact ⟨rfl, rfl⟩

/-- Witness for C1 amended: with counters present the disk metrics return a
value; with counters absent they raise `AttributeError`. -/
theorem c1_amended_numeric_never_raises_witness :
    ((∃ out, diskReadSpeed_asNumericE envDiskPresent diskInit = .ok out) ∧
      (∃ out, diskWriteSpeed_asNumericE envDiskPresent diskInit = .ok out)) ∧
    (diskReadSpeed_asNumericE envDefault diskInit = .error .attributeError ∧
      diskWriteSpeed_asNumericE envDefault diskInit = .error .attributeError) :=
  ⟨c1_amended_numeric_never_raises.2.2.2.2.2.2.1 envDiskPresent diskInit ⟨0, 0⟩ rfl,
   c1_amended_numeric_never_raises.2.2.2.2.2.2.2 envDefault diskInit rfl⟩

/-- Claim C3: each disk-speed `as_numeric` call computes
`(current_bytes - previous_bytes) / elapsed / (1024*1024)` exactly when a
previous sample exists and the elapsed time is positive (no clamping: a
decreasing counter yields a negative rate); otherwise the stored rate is kept,
which on the very first call is the `0.0` sentinel, not NaN; the current
sample is stored unconditionally, and both disk classes share this body. -/
theorem c3_rate_estimator :
    (∀ (cur pb : ℤ) (now pt : ℚ) (st : DiskState),
      st.prevBytes = some pb → st.prevTime = some pt → 0 < now - pt →
      diskNewValue cur now st = ((cur - pb : ℤ) : ℚ) / (now - pt) / (1024 * 1024)) ∧
    (∀ (cur pb : ℤ) (now pt : ℚ) (st : DiskState),
      st.prevBytes = some pb → st.prevTime = some pt → ¬ 0 < now - pt →
      diskNewValue cur now st = st.value) ∧
    (∀ (cur : ℤ) (now : ℚ) (st : DiskState),
      st.prevBytes = none ∨ st.prevTime = none → diskNewValue cur now st = st.value) ∧
    (∀ (cur : ℤ) (now : ℚ) (st : DiskState),
      diskSpeed_asNumericE cur now st =
        .ok ({ value := diskNewValue cur now st, prevBytes := some cur,
               prevTime := some now,
               lastVal := pushHist st.lastVal (.num (diskNewValue cur now st)) },
             .num (diskNewValue cur now st))) ∧
    (∀ (cur : ℤ) (now : ℚ), ∃ st',
      diskSpeed_asNumericE cur now diskInit = .ok (st', Val.num 0)) ∧
    (∀ (cur pb : ℤ) (now pt : ℚ) (st : DiskState),
      st.prevBytes = some pb → st.prevTime = some pt → 0 < now - pt → cur < pb →
      diskNewValue cur now st < 0) ∧
    (∀ e st c, e.diskCounters = some c →
      diskReadSpeed_asNumericE e st = diskSpeed_asNumericE c.readBytes e.timeNow st ∧
      diskWriteSpeed_asNumericE e st = diskSpeed_asNumericE c.writeBytes e.timeNow st) := by
  have hpos : ∀ (cur pb : ℤ) (now pt : ℚ) (st : DiskState),
      st.prevBytes = some pb → st.prevTime = some pt → 0 < now - pt →
      diskNewValue cur now st = ((cur - pb : ℤ) : ℚ) / (now - pt) / (1024 * 1024) := by
    intro cur pb now pt st h1 h2 h3
    rcases st with ⟨v, pbs, pts, hist⟩
    obtain rfl : pbs = some pb := h1
    obtain rfl : pts = some pt := h2
    simp only [diskNewValue]
    rw [if_pos h3]
  refine ⟨hpos, ?_, ?_, fun _ _ _ => rfl, fun _ _ => ⟨_, rfl⟩, ?_, ?_⟩
  · intro cur pb now pt st h1 h2 h3
    rcases st with ⟨v, pbs, pts, hist⟩
    obtain rfl : pbs = some pb := h1
    obtain rfl : pts = some pt := h2
    simp only [diskNewValue]
    rw [if_neg h3]
  · intro cur now st h
    rcases st with ⟨v, pbs, pts, hist⟩
    rcases h with h | h
    · obtain rfl : pbs = none := h
      cases pts <;> simp [diskNewValue]
    · obtain rfl : pts = none := h
      cases pbs <;> simp [diskNewValue]
  · intro cur pb now pt st h1 h2 h3 h4
    rw [hpos cur pb now pt st h1 h2 h3]
    apply div_neg_of_neg_of_pos
    · apply div_neg_of_neg_of_pos _ h3
      exact_mod_cast sub_neg.mpr h4
    · norm_num
  · intro e st c hc
    unfold diskReadSpeed_asNumericE diskWriteSpeed_asNumericE
      countersReadBytes countersWriteBytes
    rw [hc]
    exact ⟨rfl, rfl⟩

/-- Witness for C3: a concrete delta of 4 194 304 bytes over 1 second is
4 MB/s, a first call from the initial state returns the stored 0, a
decreasing counter gives a negative rate, and a concrete disk-read call with
counters present runs the shared body. -/
theorem c3_rate_estimator_witness :
    diskNewValue 4194304 1
        { value := 7, prevBytes := some 0, prevTime := some 0, lastVal := histInit } =
      ((4194304 - 0 : ℤ) : ℚ) / (1 - 0) / (1024 * 1024) ∧
    (∃ st', diskSpeed_asNumericE 4194304 1 diskInit = .ok (st', Val.num 0)) ∧
    diskNewValue 100 1
        { value := 7, prevBytes := some 1000, prevTime := some 0, lastVal := histInit } < 0 ∧
    diskReadSpeed_asNumericE envDiskPresent diskInit =
      diskSpeed_asNumericE 0 1 diskInit := by
  refine ⟨?_, c3_rate_estimator.2.2.2.2.1 4194304 1, ?_, ?_⟩
  · exact c3_rate_estimator.1 4194304 0 1 0 _ rfl rfl (by simp)
  · exact c3_rate_estimator.2.2.2.2.2.1 100 1000 1 0 _ rfl rfl (by simp) (by decide)
  · exact (c3_rate_estimator.2.2.2.2.2.2 envDiskPresent diskInit ⟨0, 0⟩ rfl).1

/-- Whenever the memory-clock metric returns a positive number, the post
state has the cache flag set and stores exactly that number. -/
theorem memClock_produces_cached (e : Env) (st st' : MemState) (q : ℚ)
    (h : memoryClockSpeed_asNumericE e st = .ok (st', Val.num q)) :
    st'.cached = true ∧ st'.value = q := by
  unfold memoryClockSpeed_asNumericE memLinuxBranch at h
  repeat' split at h
  all_goals simp_all
  all_goals obtain ⟨h1, h2⟩ := h
  all_goals subst h1
  all_goals simp_all

/-- Whenever the memory-clock metric returns NaN, the state is unchanged and
the memo guard still fails, so the next call re-queries. -/
theorem memClock_nan_state (e : Env) (st st' : MemState)
    (h : memoryClockSpeed_asNumericE e st = .ok (st', Val.nan)) :
    st' = st ∧ ¬(st'.cached = true ∧ 0 < st'.value) := by
  unfold memoryClockSpeed_asNumericE memLinuxBranch at h
  repeat' split at h
  all_goals simp_all

/-- Claim C6: once the memory-clock metric has returned a positive value,
every later call returns that same value with the same state, whatever the
new environment offers (a fresh read could now fail or return 0 — it is not
consulted); and a call that returns NaN leaves the state unchanged with the
memo guard still failing, so the query is retried on the next call. -/
theorem c6_memory_clock_memoization :
    (∀ e st st' q, memoryClockSpeed_asNumericE e st = .ok (st', Val.num q) →
      0 < q → ∀ e2, memoryClockSpeed_asNumericE e2 st' = .ok (st', Val.num q)) ∧
    (∀ e st st', memoryClockSpeed_asNumericE e st = .ok (st', Val.nan) →
      st' = st ∧ ¬(st'.cached = true ∧ 0 < st'.value)) ∧
    (∀ e st st' q, memoryClockSpeed_asNumericE e st = .ok (st', Val.num q) →
      q ≤ 0 → ¬(st'.cached = true ∧ 0 < st'.value)) := by
  refine ⟨?_, memClock_nan_state, ?_⟩
  · intro e st st' q h hq e2
    obtain ⟨hc, hv⟩ := memClock_produces_cached e st st' q h
    unfold memoryClockSpeed_asNumericE
    rw [if_pos ⟨hc, by rw [hv]; exact hq⟩, hv]
  · intro e st st' q h hq hguard
    rw [(memClock_produces_cached e st st' q h).2] at hguard
    exact absurd hguard.2 (not_lt.mpr hq)

/-- Windows environment exposing one memory clock sensor at 3200 MHz. -/
def envWinMem : Env :=
  { envDefault with
      plat := .windows
      lhm := some [⟨.memory, [⟨.clock, "Memory", some 3200⟩]⟩] }

/-- Windows environment whose memory clock sensor reads 0 (failed read). -/
def envWinMemZero : Env :=
  { envDefault with
      plat := .windows
      lhm := some [⟨.memory, [⟨.clock, "Memory", some 0⟩]⟩] }

/-- Witness for C6: after a successful 3200 read on the hardware-tree path,
a later call in an environment where every read fails still returns 3200; a
failed call leaves the initial state unchanged with the guard failing; and a
0 read never satisfies the memo guard. -/
theorem c6_memory_clock_memoization_witness :
    memoryClockSpeed_asNumericE { envDefault with plat := .linux }
        { value := 3200, cached := true } =
      .ok ({ value := 3200, cached := true }, Val.num 3200) ∧
    (memInit = memInit ∧ ¬(memInit.cached = true ∧ 0 < memInit.value)) ∧
    ¬(({ value := 0, cached := true } : MemState).cached = true ∧
      0 < ({ value := 0, cached := true } : MemState).value) := by
  refine ⟨?_, ?_, ?_⟩
  · exact c6_memory_clock_memoization.1 envWinMem memInit
      { value := 3200, cached := true } 3200 rfl (by decide)
      { envDefault with plat := .linux }
  · exact c6_memory_clock_memoization.2.1 envDefault memInit memInit rfl
  · exact c6_memory_clock_memoization.2.2 envWinMemZero memInit
      { value := 0, cached := true } 0 rfl (by decide)

/-- Linux environment where `psutil.cpu_freq(percpu=True)` is empty, so both
the max-frequency and the current-frequency lookups fail. -/
def envFreqFail : Env := { envDefault with plat := .linux }

/-- Linux environment where the max-frequency lookup would succeed: one
logical CPU on package 0 at 2000 MHz current / 3000 MHz max. -/
def envFreqOk : Env :=
  { envDefault with
      plat := .linux
      topoFile := fun _ => .found "0"
      perCpuFreq := [⟨2000, 3000⟩] }

/-- Counterexample to C7: the first `as_numeric` call fails its max-frequency
read yet sets `_max_freq_loaded`; a second call in an environment where the
lookup now yields 3000 still leaves `max_freq` at 0 — the failed read was
cached as final and is not retried. -/
theorem c7_counterexample :
    cpuFrequency_asNumericE 0 envFreqFail freqInit =
      .ok ({ freqInit with maxFreqLoaded := true }, Val.nan) ∧
    (linuxPerCpuMaxFreqs envFreqOk.topoFile envFreqOk.cpuinfoMaxFile
      envFreqOk.scalingMaxFile envFreqOk.perCpuFreq).lookup 0 = some 3000 ∧
    (∃ st2 v, cpuFrequency_asNumericE 0 envFreqOk
        { freqInit with maxFreqLoaded := true } = .ok (st2, v) ∧
      st2.maxFreq = 0 ∧ st2.maxFreqLoaded = true) := by
  exact ⟨rfl, rfl, ⟨_, _, rfl, rfl, rfl⟩⟩

/-- After any call the max-frequency flag is set. -/
theorem freqLoadMax_loaded (idx : ℕ) (e : Env) (st : FreqState) :
    (freqLoadMax idx e st).maxFreqLoaded = true := by
  unfold freqLoadMax
  repeat' split
  all_goals simp_all

/-- Once the flag is set, the max-frequency block is a no-op. -/
theorem freqLoadMax_of_loaded {st : FreqState} (idx : ℕ) (e : Env)
    (h : st.maxFreqLoaded = true) : freqLoadMax idx e st = st := by
  unfold freqLoadMax
  rw [if_pos h]

/-- Claim C7 as amended: the per-package max-frequency lookup is attempted
only on the first `as_numeric` call — the loaded flag is set whether or not
the lookup succeeds, so a failed read leaves `max_freq` at its previous value
(0) permanently and is never retried. -/
theorem c7_amended_max_freq_cached_final (idx : ℕ) (e : Env) (st : FreqState) :
    ∃ st' v, cpuFrequency_asNumericE idx e st = .ok (st', v) ∧
      st'.maxFreqLoaded = true ∧
      (st.maxFreqLoaded = true → st'.maxFreq = st.maxFreq) := by
  unfold cpuFrequency_asNumericE freqWindowsBranch
  repeat' split
  all_goals refine ⟨_, _, rfl, ?_, ?_⟩
  all_goals try exact freqLoadMax_loaded idx e st
  all_goals intro hl
  all_goals show (freqLoadMax idx e st).maxFreq = st.maxFreq
  all_goals rw [freqLoadMax_of_loaded idx e hl]

/-- Witness for C7 amended: with the flag already set, a call in an
environment whose lookup would yield 3000 keeps `max_freq = 0`. -/
theorem c7_amended_max_freq_cached_final_witness :
    ∃ st' v, cpuFrequency_asNumericE 0 envFreqOk
        { freqInit with maxFreqLoaded := true } = .ok (st', v) ∧
      st'.maxFreqLoaded = true ∧ st'.maxFreq = freqInit.maxFreq := by
  obtain ⟨st', v, h1, h2, h3⟩ :=
    c7_amended_max_freq_cached_final 0 envFreqOk { freqInit with maxFreqLoaded := true }
  exact ⟨st', v, h1, h2, h3 rfl⟩

/-- A Linux environment with no fan chip and no nvme entry. -/
def envLinuxBare : Env := { envDefault with plat := .linux }

/-- Counterexample to C8: on Linux with the nct6779 chip absent the fan-speed
metric stores and returns 0 — not NaN — and with no nvme entry the NVMe
temperature metric returns its previously stored value (55 here), also not
NaN. -/
theorem c8_counterexample :
    cpuFanSpeed_asNumericE "fan1" envLinuxBare metricInit =
      .ok ({ value := 0, lastVal := pushHist histInit (Val.num 0) }, Val.num 0) ∧
    Val.num 0 ≠ Val.nan ∧
    nvmeTemperature_asNumericE envLinuxBare { value := 55, lastVal := histInit } =
      .ok ({ value := 55, lastVal := pushHist histInit (Val.num 55) }, Val.num 55) ∧
    Val.num 55 ≠ Val.nan ∧
    diskWriteSpeed_asNumericE envLinuxBare diskInit = .error .attributeError := by
  exact ⟨rfl, by decide, rfl, by decide, rfl⟩

/-- Claim C8 as amended: when the underlying reading is unavailable, the CPU
load, temperature and frequency metrics return NaN without touching the
stored value or the history (also when the hardware binding is missing), and
the memory clock likewise returns NaN on a failed or unavailable read; the
fan-speed metrics instead store and return the `fans.get(label, 0)` default
of 0, and the NVMe temperature re-appends and returns its previously stored
value; the disk metrics never report NaN — with counters present they always
return a number, and with counters absent their attribute access raises. -/
theorem c8_amended_unavailable_behavior :
    (∀ (idx : ℕ) (e : Env) (st : MetricState), e.plat = .linux →
      (linuxPerCpuUsage e.topoFile e.perCpuPercent).lookup (idx : ℤ) = none →
      cpuPercentage_asNumericE idx e st = .ok (st, Val.nan)) ∧
    (∀ (idx : ℕ) (e : Env) (st : MetricState), e.plat = .linux →
      (linuxGetCpuTemperatures e.sensorTemps).lookup (idx : ℤ) = none →
      cpuTemperature_asNumericE idx e st = .ok (st, Val.nan)) ∧
    (∀ (idx : ℕ) (e : Env) (st : FreqState), e.plat = .linux →
      (linuxPerCpuFreqs e.topoFile e.perCpuFreq).lookup (idx : ℤ) = none →
      cpuFrequency_asNumericE idx e st = .ok (freqLoadMax idx e st, Val.nan)) ∧
    (∀ (idx : ℕ) (e : Env) (st : MetricState), e.plat = .windows → e.lhm = none →
      cpuPercentage_asNumericE idx e st = .ok (st, Val.nan)) ∧
    (∀ (idx : ℕ) (e : Env) (st : MetricState), e.plat = .windows → e.lhm = none →
      cpuTemperature_asNumericE idx e st = .ok (st, Val.nan)) ∧
    (∀ (idx : ℕ) (e : Env) (st : FreqState), e.plat = .windows → e.lhm = none →
      cpuFrequency_asNumericE idx e st = .ok (freqLoadMax idx e st, Val.nan)) ∧
    (∀ (e : Env) (st : MemState), e.plat = .linux →
      ¬(st.cached = true ∧ 0 < st.value) → linuxGetMemoryClock e ≤ 0 →
      memoryClockSpeed_asNumericE e st = .ok (st, Val.nan)) ∧
    (∀ (e : Env) (st : MemState), e.plat = .windows →
      ¬(st.cached = true ∧ 0 < st.value) → e.lhm = none →
      memoryClockSpeed_asNumericE e st = .ok (st, Val.nan)) ∧
    (∀ (label : String) (e : Env) (st : MetricState), e.plat = .linux →
      (linuxGetFanSpeeds e.fans).lookup label = none →
      cpuFanSpeed_asNumericE label e st =
        .ok ({ value := 0, lastVal := pushHist st.lastVal (Val.num 0) }, Val.num 0)) ∧
    (∀ (e : Env) (st : MetricState), e.plat = .linux →
      nvmeComposite e.sensorTemps = none →
      nvmeTemperature_asNumericE e st =
        .ok ({ value := st.value, lastVal := pushHist st.lastVal (Val.num st.value) },
          Val.num st.value)) ∧
    (∀ (e : Env) (st : DiskState) (c : DiskCounters), e.diskCounters = some c →
      (∃ st' q, diskReadSpeed_asNumericE e st = .ok (st', Val.num q)) ∧
      (∃ st' q, diskWriteSpeed_asNumericE e st = .ok (st', Val.num q))) ∧
    (∀ (e : Env) (st : DiskState), e.diskCounters = none →
      diskReadSpeed_asNumericE e st = .error .attributeError ∧
      diskWriteSpeed_asNumericE e st = .error .attributeError) := by
  refine ⟨?_, ?_, ?_, ?_, ?_, ?_, ?_, ?_, ?_, ?_, ?_, ?_⟩
  · intro idx e st hp hl
    unfold cpuPercentage_asNumericE
    rw [hp, hl]
  · intro idx e st hp hl
    unfold cpuTemperature_asNumericE
    rw [hp, hl]
  · intro idx e st hp hl
    unfold cpuFrequency_asNumericE
    simp only [hp, hl]
  · intro idx e st hp hl
    unfold cpuPercentage_asNumericE
    simp only [hp, hl, getCpuByIdxLhm, getCpusLhm, List.getElem?_nil]
  · intro idx e st hp hl
    unfold cpuTemperature_asNumericE
    simp only [hp, hl, getCpuByIdxLhm, getCpusLhm, List.getElem?_nil]
  · intro idx e st hp hl
    unfold cpuFrequency_asNumericE
    simp only [hp, hl, getCpuByIdxLhm, getCpusLhm, List.getElem?_nil]
  · intro e st hp hg hle
    unfold memoryClockSpeed_asNumericE memLinuxBranch
    rw [if_neg hg]
    simp only [hp]
    rw [if_neg (not_lt.mpr hle)]
  · intro e st hp hg hl
    unfold memoryClockSpeed_asNumericE
    rw [if_neg hg]
    simp only [hp, hl]
  · intro label e st hp hl
    have hv : fanNewValue label e st = 0 := by
      unfold fanNewValue
      rw [hp, hl]
      rfl
    unfold cpuFanSpeed_asNumericE
    rw [hv]
  · intro e st hp hl
    have hv : nvmeNewValue e st = st.value := by
      unfold nvmeNewValue
      rw [hp, hl]
    unfold nvmeTemperature_asNumericE
    rw [hv]
  · intro e st c hc
    unfold diskReadSpeed_asNumericE diskWriteSpeed_asNumericE
      countersReadBytes countersWriteBytes
    rw [hc]
    exact ⟨⟨_, _, rfl⟩, ⟨_, _, rfl⟩⟩
  · intro e st hc
    unfold diskReadSpeed_asNumericE diskWriteSpeed_asNumericE
      countersReadBytes countersWriteBytes
    rw [hc]
    exact ⟨rfl, rfl⟩

/-- Windows environment with the hardware binding absent. -/
def envWinNoLhm : Env := { envDefault with plat := .windows }

/-- Witness for C8 amended: in the bare Linux environment the load, frequency
and memory-clock metrics return NaN, a missing binding yields NaN for the
load metric, the fan metric returns 0, the NVMe metric returns the stored 55,
and the disk metrics return a number with counters present and raise with
counters absent. -/
theorem c8_amended_unavailable_behavior_witness :
    cpuPercentage_asNumericE 0 envLinuxBare metricInit = .ok (metricInit, Val.nan) ∧
    cpuFrequency_asNumericE 0 envLinuxBare freqInit =
      .ok (freqLoadMax 0 envLinuxBare freqInit, Val.nan) ∧
    cpuPercentage_asNumericE 0 envWinNoLhm metricInit = .ok (metricInit, Val.nan) ∧
    memoryClockSpeed_asNumericE envLinuxBare memInit = .ok (memInit, Val.nan) ∧
    cpuFanSpeed_asNumericE "fan1" envLinuxBare metricInit =
      .ok ({ value := 0, lastVal := pushHist metricInit.lastVal (Val.num 0) }, Val.num 0) ∧
    nvmeTemperature_asNumericE envLinuxBare { value := 55, lastVal := histInit } =
      .ok ({ value := 55, lastVal := pushHist histInit (Val.num 55) }, Val.num 55) ∧
    (∃ st' q, diskReadSpeed_asNumericE envDiskPresent diskInit = .ok (st', Val.num q)) ∧
    diskReadSpeed_asNumericE envLinuxBare diskInit = .error .attributeError := by
  refine ⟨?_, ?_, ?_, ?_, ?_, ?_, ?_, ?_⟩
  · exact c8_amended_unavailable_behavior.1 0 envLinuxBare metricInit rfl rfl
  · exact c8_amended_unavailable_behavior.2.2.1 0 envLinuxBare freqInit rfl rfl
  · exact c8_amended_unavailable_behavior.2.2.2.1 0 envWinNoLhm metricInit rfl rfl
  · exact c8_amended_unavailable_behavior.2.2.2.2.2.2.1 envLinuxBare memInit rfl
      (by decide) (by decide)
  · exact c8_amended_unavailable_behavior.2.2.2.2.2.2.2.2.1 "fan1" envLinuxBare
      metricInit rfl rfl
  · exact c8_amended_unavailable_behavior.2.2.2.2.2.2.2.2.2.1 envLinuxBare
      { value := 55, lastVal := histInit } rfl rfl
  · exact (c8_amended_unavailable_behavior.2.2.2.2.2.2.2.2.2.2.1 envDiskPresent
      diskInit ⟨0, 0⟩ rfl).1
  · exact (c8_amended_unavailable_behavior.2.2.2.2.2.2.2.2.2.2.2 envLinuxBare
      diskInit rfl).1

/-- Half-even rounding of an integer is that integer. -/
theorem roundHalfEven_intCast (n : ℤ) : roundHalfEven (n : ℚ) = n := by
  unfold roundHalfEven
  rw [Int.floor_intCast]
  norm_num

/-- Formatting a natural number with no fractional digits yields exactly its
decimal digits. -/
theorem pyFormatCore_natCast_zero_prec (n : ℕ) :
    pyFormatCore 0 (n : ℚ) = natDigits n := by
  unfold pyFormatCore
  rw [if_neg (not_lt.mpr (Nat.cast_nonneg n)), if_pos rfl, pow_zero, mul_one,
    abs_of_nonneg (Nat.cast_nonneg n),
    show ((n : ℚ)) = ((n : ℤ) : ℚ) by push_cast; rfl,
    roundHalfEven_intCast]
  simp

/-- Counterexample to C9: the percentage metric formats with `{value:.0f}%`,
so the valid stored loads 5 and 50 give strings of different lengths. -/
theorem c9_counterexample :
    (cpuPercentage_asString { value := 5, lastVal := histInit }).length ≠
      (cpuPercentage_asString { value := 50, lastVal := histInit }).length ∧
    (0 : ℚ) ≤ 5 ∧ (0 : ℚ) ≤ 50 ∧ (5 : ℚ) ≤ 100 ∧ (50 : ℚ) ≤ 100 := by
  have h5 : pyFormatCore 0 (5 : ℚ) = natDigits 5 := by
    rw [show (5 : ℚ) = ((5 : ℕ) : ℚ) by norm_num]
    exact pyFormatCore_natCast_zero_prec 5
  have h50 : pyFormatCore 0 (50 : ℚ) = natDigits 50 := by
    rw [show (50 : ℚ) = ((50 : ℕ) : ℚ) by norm_num]
    exact pyFormatCore_natCast_zero_prec 50
  have hd5 : (natDigits 5).length = 1 := by
    rw [natDigits_of_lt_ten (by norm_num)]
    rfl
  have hd50 : (natDigits 50).length = 2 := by
    unfold natDigits
    rw [dif_neg (by norm_num)]
    rw [show (50 : ℕ) / 10 = 5 by norm_num, natDigits_of_lt_ten (by norm_num)]
    rfl
  have hl5 : (cpuPercentage_asString { value := 5, lastVal := histInit }).length = 2 := by
    unfold cpuPercentage_asString
    rw [String.length_append, pyFormat_length, h5, hd5]
    rfl
  have hl50 : (cpuPercentage_asString { value := 50, lastVal := histInit }).length = 3 := by
    unfold cpuPercentage_asString
    rw [String.length_append, pyFormat_length, h50, hd50]
    rfl
  rw [hl5, hl50]
  norm_num

/-- Claim C9 as amended: the fixed-width "no shrinking" property holds for the
disk read/write speed strings — for every non-negative stored value up to
999.9 MB/s (the format-switch and rounding boundary) the string has length
exactly 10 — while the percentage (and the other `{value:.0f}`-style) metrics
use unpadded formats whose length grows with the value. -/
theorem c9_amended_disk_fixed_width (q : ℚ) (pb : Option ℤ) (pt : Option ℚ)
    (hist : List Val) (h0 : 0 ≤ q) (h1 : q ≤ 9999 / 10) :
    (diskSpeed_asString
      { value := q, prevBytes := pb, prevTime := pt, lastVal := hist }).length = 10 := by
  have habs : |q| = q := abs_of_nonneg h0
  have hz : roundHalfEven (|q| * 10 ^ 1) ≤ 9999 := by
    rw [habs, pow_one]
    have hle := roundHalfEven_le (q * 10)
    have hb : q * 10 ≤ 9999 := by linarith
    by_contra hc
    push_neg at hc
    have h10 : (10000 : ℚ) ≤ (roundHalfEven (q * 10) : ℚ) := by exact_mod_cast hc
    linarith
  have hnn : 0 ≤ roundHalfEven (|q| * 10 ^ 1) := roundHalfEven_nonneg (by positivity)
  have hts : (roundHalfEven (|q| * 10 ^ 1)).toNat ≤ 9999 := by omega
  have hp1 : (10 : ℕ) ^ 1 = 10 := by norm_num
  have hfp : (roundHalfEven (|q| * 10 ^ 1)).toNat % 10 ^ 1 < 10 := by
    rw [hp1]
    omega
  have hcore : (pyFormatCore 1 q).length =
      (natDigits ((roundHalfEven (|q| * 10 ^ 1)).toNat / 10 ^ 1)).length + 2 := by
    unfold pyFormatCore
    rw [if_neg (not_lt.mpr h0), if_neg (by norm_num : (1 : ℕ) ≠ 0),
      natDigits_of_lt_ten hfp]
    simp [leftPadZeros]
  have hip : (roundHalfEven (|q| * 10 ^ 1)).toNat / 10 ^ 1 < 10 ^ 3 := by
    have h3 : (10 : ℕ) ^ 3 = 1000 := by norm_num
    rw [hp1, h3]
    omega
  have hdl : (natDigits ((roundHalfEven (|q| * 10 ^ 1)).toNat / 10 ^ 1)).length ≤ 3 :=
    natDigits_length_le hip (by norm_num)
  have hdp : 0 < (natDigits ((roundHalfEven (|q| * 10 ^ 1)).toNat / 10 ^ 1)).length :=
    natDigits_length_pos _
  have hlt : ¬ (1000 : ℚ) ≤ q := by
    intro hc
    have := le_trans hc h1
    norm_num at this
  unfold diskSpeed_asString
  rw [if_neg hlt, String.length_append, pyFormat_length, hcore,
    show (" MB/s" : String).length = 5 from rfl]
  omega

/-- Witness for C9 amended: a freshly initialised disk metric (stored value
0.0) formats to a 10-character string. -/
theorem c9_amended_disk_fixed_width_witness :
    (diskSpeed_asString
      { value := 0, prevBytes := none, prevTime := none, lastVal := histInit }).length
      = 10 :=
  c9_amended_disk_fixed_width 0 none none histInit (by norm_num) (by norm_num)

/-- Claim C10: for the CPU load, temperature and frequency metrics, an
`as_numeric` call that returns NaN leaves the stored last value and the
history buffer unchanged — the unavailable cycle is not appended and the
value used by the formatter is not overwritten. -/
theorem c10_nan_preserves_state :
    (∀ (idx : ℕ) (e : Env) (st st' : MetricState),
      cpuPercentage_asNumericE idx e st = .ok (st', Val.nan) →
      st'.value = st.value ∧ st'.lastVal = st.lastVal) ∧
    (∀ (idx : ℕ) (e : Env) (st st' : MetricState),
      cpuTemperature_asNumericE idx e st = .ok (st', Val.nan) →
      st'.value = st.value ∧ st'.lastVal = st.lastVal) ∧
    (∀ (idx : ℕ) (e : Env) (st st' : FreqState),
      cpuFrequency_asNumericE idx e st = .ok (st', Val.nan) →
      st'.value = st.value ∧ st'.lastVal = st.lastVal) := by
  refine ⟨?_, ?_, ?_⟩
  · intro idx e st st' h
    unfold cpuPercentage_asNumericE at h
    repeat' split at h
    all_goals simp_all
  · intro idx e st st' h
    unfold cpuTemperature_asNumericE at h
    repeat' split at h
    all_goals simp_all
  · intro idx e st st' h
    unfold cpuFrequency_asNumericE freqWindowsBranch at h
    repeat' split at h
    all_goals simp_all
    all_goals subst h
    all_goals exact ⟨(freqLoadMax_preserves idx e st).1, (freqLoadMax_preserves idx e st).2⟩

/-- Witness for C10: on an unsupported platform every cycle is NaN and the
initial states are untouched. -/
theorem c10_nan_preserves_state_witness :
    (metricInit.value = metricInit.value ∧ metricInit.lastVal = metricInit.lastVal) ∧
    ({ freqInit with maxFreqLoaded := true }.value = freqInit.value ∧
      { freqInit with maxFreqLoaded := true }.lastVal = freqInit.lastVal) := by
  constructor
  · exact c10_nan_preserves_state.1 0 envDefault metricInit metricInit rfl
  · exact c10_nan_preserves_state.2.2 0 envDefault freqInit
      { freqInit with maxFreqLoaded := true } rfl

end SensorsCustom
